import Mathlib

/-!
Verification development for the TypedContract workflow engine.

This file gives a shallow embedding of the repository's core decision logic:

* `src/agent/error_classifier.py` — diagnostic classification, retry policy
  and strategy decision (pure functions, embedded one-to-one);
* `src/backend/agent/agent.py` — the orchestrator's pure state mutations:
  `normalize_error_message`, `add_log`, the state updates of `typecheck_code`
  and the routing function `should_continue` (external collaborators — the
  compiler oracle, the LLM and the clock — are passed in as parameters, and
  the Python dict-shaped `AgentState` becomes an explicit structure);
* `src/agent/workflow_state.py` — the `WorkflowState` record, its phase
  machine and the JSON persistence layer (the one-JSON-document-per-project
  round trip is embedded as the encode/decode pair `save_data`/`load_data`).

Machine integers are embedded as `Nat` (all counters in the source are
non-negative and never near overflow), Python strings as `String`, Python
`None`-able fields as `Option`.
-/

set_option maxRecDepth 4096

-- ===========================================================================
-- src/agent/error_classifier.py
-- ===========================================================================

/-- `ErrorLevel` enum (error_classifier.py:18-23). -/
inductive ErrorLevel where
  | SYNTAX_ERROR
  | PROOF_FAILURE
  | DOMAIN_ERROR
  | UNKNOWN
deriving DecidableEq, Repr

/-- `UserAction` enum (error_classifier.py:30-36). -/
inductive UserAction where
  | RETRY_WITH_FIX
  | REMOVE_PROOFS
  | REANALYZE
  | MANUAL_EDIT
  | ABORT
deriving DecidableEq, Repr

/-- `ErrorLocation` dataclass (error_classifier.py:43-50). -/
structure ErrorLocation where
  file_path : String
  line_number : Nat
deriving DecidableEq, Repr

/-- `ClassifiedError` dataclass (error_classifier.py:57-65). -/
structure ClassifiedError where
  level : ErrorLevel
  message : String
  location : Option ErrorLocation
  suggestion : String
  available_actions : List UserAction
  auto_fixable : Bool
deriving DecidableEq, Repr

/-- Does `pat` occur as a contiguous run of `l`, checked position by
position from the left? -/
def infixAt (pat : List Char) : List Char → Bool
  | [] => pat.isEmpty
  | c :: t => List.isPrefixOf pat (c :: t) || infixAt pat t

/-- Python's substring test `pattern in message`. -/
def containsSub (message pattern : String) : Bool :=
  infixAt pattern.data message.data

/-- Domain-error pattern list (error_classifier.py:81-89). -/
def domainPatterns : List String :=
  ["Type mismatch between", "Expected type", "does not have field",
   "Can't find implementation for"]

/-- `is_domain_error` (error_classifier.py:81-89). -/
def is_domain_error (message : String) : Bool :=
  domainPatterns.any (fun p => containsSub message p)

/-- Proof-failure pattern list (error_classifier.py:92-99). -/
def proofPatterns : List String :=
  ["Can't solve constraint", "Mismatch between", "Can't unify"]

/-- `is_proof_failure` (error_classifier.py:92-99). -/
def is_proof_failure (message : String) : Bool :=
  proofPatterns.any (fun p => containsSub message p)

/-- Syntax-error pattern list (error_classifier.py:102-110). -/
def syntaxPatterns : List String :=
  ["Undefined name", "Parse error", "Can't find import", "Unexpected token"]

/-- `is_syntax_error` (error_classifier.py:102-110). -/
def is_syntax_error (message : String) : Bool :=
  syntaxPatterns.any (fun p => containsSub message p)

/-- `classify_error_level` (error_classifier.py:117-126): priority
Domain > Proof > Syntax, first match wins, no match is `UNKNOWN`. -/
def classify_error_level (message : String) : ErrorLevel :=
  if is_domain_error message then ErrorLevel.DOMAIN_ERROR
  else if is_proof_failure message then ErrorLevel.PROOF_FAILURE
  else if is_syntax_error message then ErrorLevel.SYNTAX_ERROR
  else ErrorLevel.UNKNOWN

/-- `get_available_actions` (error_classifier.py:129-139). -/
def get_available_actions (level : ErrorLevel) : List UserAction :=
  match level with
  | ErrorLevel.SYNTAX_ERROR =>
      [UserAction.RETRY_WITH_FIX, UserAction.MANUAL_EDIT, UserAction.ABORT]
  | ErrorLevel.PROOF_FAILURE =>
      [UserAction.REMOVE_PROOFS, UserAction.REANALYZE,
       UserAction.MANUAL_EDIT, UserAction.ABORT]
  | ErrorLevel.DOMAIN_ERROR =>
      [UserAction.REANALYZE, UserAction.MANUAL_EDIT, UserAction.ABORT]
  | ErrorLevel.UNKNOWN =>
      [UserAction.RETRY_WITH_FIX, UserAction.MANUAL_EDIT, UserAction.ABORT]

/-- `get_suggestion` (error_classifier.py:142-151). -/
def get_suggestion (level : ErrorLevel) : String :=
  match level with
  | ErrorLevel.SYNTAX_ERROR => "문법 오류입니다. Claude가 자동으로 수정을 시도합니다."
  | ErrorLevel.PROOF_FAILURE => "의존 타입 증명 실패입니다. 입력 데이터를 확인하거나 증명 없이 진행하세요."
  | ErrorLevel.DOMAIN_ERROR => "도메인 모델링 오류입니다. 문서를 재분석해야 합니다."
  | ErrorLevel.UNKNOWN => "알 수 없는 에러입니다. 수동 확인이 필요합니다."

/-- `is_auto_fixable` (error_classifier.py:154-156). -/
def is_auto_fixable (level : ErrorLevel) : Bool :=
  level = ErrorLevel.SYNTAX_ERROR

/-- Python's `\w` character class restricted to ASCII (letters, digits,
underscore), as used by the location regexes on compiler output. -/
def isWordChar (c : Char) : Bool :=
  c.isAlpha || c.isDigit || c = '_'

/-- A character the regex class `[\w/]` accepts. -/
def isPathChar (c : Char) : Bool :=
  isWordChar c || c = '/'

/-- `int(...)` on a matched digit group. -/
def digitsToNat (l : List Char) : Nat :=
  l.foldl (fun n c => n * 10 + (c.toNat - 48)) 0

/-- Attempt, at the head of `l`, the regex `[\w/]+\.idr:\d+:\d+`
(the common core of the two location regexes in the source). On success
returns the `[\w/]+` run, the first line-number digit group, and the number
of characters the match consumed. The maximal-munch spans are faithful to
the regex: `[\w/]+` cannot backtrack past the mandatory `.`, nor `\d+`
past the mandatory `:`, so the greedy spans are the only viable ones. -/
def matchBase (l : List Char) : Option (List Char × List Char × Nat) :=
  let run := l.takeWhile isPathChar
  if run.isEmpty then none else
  let r1 := l.drop run.length
  if r1.take 5 ≠ ['.', 'i', 'd', 'r', ':'] then none else
  let r2 := r1.drop 5
  let d1 := r2.takeWhile Char.isDigit
  if d1.isEmpty then none else
  let r3 := r2.drop d1.length
  if r3.take 1 ≠ [':'] then none else
  let r4 := r3.drop 1
  let d2 := r4.takeWhile Char.isDigit
  if d2.isEmpty then none else
  some (run, d1, run.length + 5 + d1.length + 1 + d2.length)

/-- Scanner for `re.search(r"([\w/]+\.idr):(\d+):\d+", message)`: leftmost
match position wins. -/
def extractLocGo : List Char → Option ErrorLocation
  | [] => none
  | c :: t =>
    match matchBase (c :: t) with
    | some (run, d1, _) =>
        some ⟨String.mk (run ++ ['.', 'i', 'd', 'r']), digitsToNat d1⟩
    | none => extractLocGo t

/-- `extract_location` (error_classifier.py:159-164). -/
def extract_location (message : String) : Option ErrorLocation :=
  extractLocGo message.data

/-- `classify_error` (error_classifier.py:167-182). -/
def classify_error (message : String) : ClassifiedError :=
  let level := classify_error_level message
  { level := level
    message := message
    location := extract_location message
    suggestion := get_suggestion level
    available_actions := get_available_actions level
    auto_fixable := is_auto_fixable level }

/-- `RetryPolicy` dataclass (error_classifier.py:189-196). -/
structure RetryPolicy where
  max_syntax_retries : Nat
  max_proof_retries : Nat
  max_domain_retries : Nat
  auto_retry_proof : Bool
  auto_retry_domain : Bool
deriving DecidableEq, Repr

/-- `DEFAULT_RETRY_POLICY` (error_classifier.py:200-206). -/
def DEFAULT_RETRY_POLICY : RetryPolicy :=
  { max_syntax_retries := 3
    max_proof_retries := 0
    max_domain_retries := 0
    auto_retry_proof := false
    auto_retry_domain := false }

/-- `AGGRESSIVE_RETRY_POLICY` (error_classifier.py:209-215). -/
def AGGRESSIVE_RETRY_POLICY : RetryPolicy :=
  { max_syntax_retries := 5
    max_proof_retries := 2
    max_domain_retries := 1
    auto_retry_proof := true
    auto_retry_domain := true }

/-- `should_retry` (error_classifier.py:218-227). -/
def should_retry (policy : RetryPolicy) (level : ErrorLevel)
    (attempt_count : Nat) : Bool :=
  match level with
  | ErrorLevel.SYNTAX_ERROR => attempt_count < policy.max_syntax_retries
  | ErrorLevel.PROOF_FAILURE =>
      policy.auto_retry_proof && attempt_count < policy.max_proof_retries
  | ErrorLevel.DOMAIN_ERROR =>
      policy.auto_retry_domain && attempt_count < policy.max_domain_retries
  | ErrorLevel.UNKNOWN => attempt_count < 1

/-- `ErrorStrategy` enum (error_classifier.py:234-240). -/
inductive ErrorStrategy where
  | AUTO_FIX
  | ASK_USER
  | FALLBACK
  | REANALYZE
  | TERMINATE
deriving DecidableEq, Repr

/-- The `.value` string of each `ErrorStrategy` member. -/
def ErrorStrategy.value : ErrorStrategy → String
  | ErrorStrategy.AUTO_FIX => "auto_fix"
  | ErrorStrategy.ASK_USER => "ask_user"
  | ErrorStrategy.FALLBACK => "fallback"
  | ErrorStrategy.REANALYZE => "reanalyze"
  | ErrorStrategy.TERMINATE => "terminate"

/-- `decide_strategy` (error_classifier.py:243-268). -/
def decide_strategy (policy : RetryPolicy) (error : ClassifiedError)
    (attempt_count : Nat) : ErrorStrategy :=
  match error.level with
  | ErrorLevel.SYNTAX_ERROR =>
      if should_retry policy ErrorLevel.SYNTAX_ERROR attempt_count then
        ErrorStrategy.AUTO_FIX
      else
        ErrorStrategy.TERMINATE
  | ErrorLevel.PROOF_FAILURE =>
      if attempt_count = 0 then ErrorStrategy.ASK_USER
      else ErrorStrategy.FALLBACK
  | ErrorLevel.DOMAIN_ERROR =>
      if attempt_count = 0 then ErrorStrategy.REANALYZE
      else ErrorStrategy.TERMINATE
  | ErrorLevel.UNKNOWN =>
      if attempt_count = 0 then ErrorStrategy.ASK_USER
      else ErrorStrategy.TERMINATE

-- ===========================================================================
-- src/backend/agent/agent.py — normalize_error_message (lines 153-190)
-- ===========================================================================

/-- Python's `\s` class, restricted to ASCII, as matched by `re.sub(r"\s+", " ", …)`
and stripped by `str.strip()`. -/
def isWs (c : Char) : Bool :=
  c = ' ' || c = '\t' || c = '\n' || c = '\r' || c = '\x0b' || c = '\x0c'

/-- Attempt, at the head of `l`, the full location regex
`[\w/]+\.idr:\d+:\d+(?:--\d+:\d+)?` of `normalize_error_message`
(agent.py:181); returns the number of characters consumed. The optional
column-span group is taken greedily when it matches in full and skipped
otherwise, exactly as the regex engine does. -/
def matchLoc (l : List Char) : Option Nat :=
  match matchBase l with
  | none => none
  | some (_, _, base) =>
    let r := l.drop base
    let ext :=
      if r.take 2 = ['-', '-'] then
        let d3 := (r.drop 2).takeWhile Char.isDigit
        if d3.isEmpty then 0 else
        let r2 := (r.drop 2).drop d3.length
        if r2.take 1 ≠ [':'] then 0 else
        let d4 := (r2.drop 1).takeWhile Char.isDigit
        if d4.isEmpty then 0 else 2 + d3.length + 1 + d4.length
      else 0
    some (base + ext)

theorem matchBase_pos {l run d1 k} (h : matchBase l = some (run, d1, k)) :
    0 < k := by
  unfold matchBase at h
  all_goals simp_all
  omega

theorem matchLoc_pos {l : List Char} {n : Nat} (h : matchLoc l = some n) :
    0 < n := by
  unfold matchLoc at h
  cases hb : matchBase l with
  | none => rw [hb] at h; exact absurd h (by simp)
  | some x =>
      obtain ⟨run, d1, k⟩ := x
      have hk := matchBase_pos hb
      rw [hb] at h
      simp only [Option.some.injEq] at h
      omega

/-- `path.split('/')[-1]` on the matched location text. -/
def afterLastSlash (l : List Char) : List Char :=
  (l.reverse.takeWhile (fun c => c ≠ '/')).reverse

/-- `re.search(r":(\d+):", path)`: the first digit group standing between two
colons, scanning positions from the left. -/
def firstLineNum : List Char → Option (List Char)
  | [] => none
  | c :: t =>
    if c = ':' then
      let ds := t.takeWhile Char.isDigit
      if !ds.isEmpty && (t.drop ds.length).take 1 = [':'] then some ds
      else firstLineNum t
    else firstLineNum t

/-- `simplify_location` (agent.py:170-178): keep the basename and the first
line number of a matched location token, drop directories and columns. -/
def simplifyLoc (m : List Char) : List Char :=
  let filename := (afterLastSlash m).takeWhile (fun c => c ≠ ':')
  match firstLineNum m with
  | some ds => filename ++ ':' :: ds
  | none => filename

/-- The `re.sub` pass of `normalize_error_message` (agent.py:180-184),
scanning left to right: at an active position (`skip = 0`) a matched
location token is replaced by its simplified form and the scanner skips
past it (every match consumes at least one character, `matchLoc_pos`);
an unmatched character is copied. -/
def subLocGo : Nat → List Char → List Char
  | _, [] => []
  | 0, c :: t =>
    match matchLoc (c :: t) with
    | some n => simplifyLoc ((c :: t).take n) ++ subLocGo (n - 1) t
    | none => c :: subLocGo 0 t
  | k + 1, _ :: t => subLocGo k t

/-- Location-token substitution over a whole character list. -/
def subLoc (l : List Char) : List Char :=
  subLocGo 0 l

/-- `re.sub(r"\s+", " ", …)` (agent.py:187): replace every maximal
whitespace run by a single space; the flag records whether the previous
character belonged to a run already replaced. -/
def collapseWsAux : Bool → List Char → List Char
  | _, [] => []
  | prevWs, c :: t =>
    if isWs c then
      if prevWs then collapseWsAux true t else ' ' :: collapseWsAux true t
    else c :: collapseWsAux false t

/-- Whitespace collapsing, starting outside any run. -/
def collapseWs (l : List Char) : List Char :=
  collapseWsAux false l

/-- Remove trailing whitespace. -/
def dropTrailingWs : List Char → List Char
  | [] => []
  | c :: t =>
    match dropTrailingWs t with
    | [] => if isWs c then [] else [c]
    | d :: r => c :: d :: r

/-- Python `str.strip()`: remove leading and trailing whitespace. -/
def stripWs (l : List Char) : List Char :=
  dropTrailingWs (l.dropWhile isWs)

/-- `normalize_error_message` (agent.py:153-190): simplify location tokens,
collapse whitespace, strip, truncate to the first 150 characters. -/
def normalize_error_message (s : String) : String :=
  String.mk ((stripWs (collapseWs (subLoc s.data))).take 150)

-- ===========================================================================
-- src/backend/agent/agent.py — orchestrator state and pure node mutations
-- ===========================================================================

/-- `get_error_emoji` (error_classifier.py:297-305). -/
def get_error_emoji (level : ErrorLevel) : String :=
  match level with
  | ErrorLevel.SYNTAX_ERROR => "⚠️"
  | ErrorLevel.PROOF_FAILURE => "🔍"
  | ErrorLevel.DOMAIN_ERROR => "🤔"
  | ErrorLevel.UNKNOWN => "❓"

/-- `ErrorLocation.__str__` (error_classifier.py:49-50). -/
def ErrorLocation.str (loc : ErrorLocation) : String :=
  loc.file_path ++ ":" ++ toString loc.line_number

/-- `format_user_message` (error_classifier.py:308-318). -/
def format_user_message (error : ClassifiedError) : String :=
  let emoji := get_error_emoji error.level
  let header := emoji ++ " **컴파일 중 문제 발생**\n\n"
  let level := "**에러 레벨**: " ++
    (match error.level with
     | ErrorLevel.SYNTAX_ERROR => "syntax"
     | ErrorLevel.PROOF_FAILURE => "proof"
     | ErrorLevel.DOMAIN_ERROR => "domain"
     | ErrorLevel.UNKNOWN => "unknown") ++ "\n"
  let location :=
    match error.location with
    | some loc => "**위치**: " ++ loc.str ++ "\n"
    | none => ""
  let cause := "\n**원인**: " ++ error.suggestion ++ "\n"
  let warning :=
    if !error.auto_fixable then
      "\n⚡ 이 에러는 자동 수정이 어렵습니다. 사용자 확인이 필요합니다.\n"
    else ""
  header ++ level ++ location ++ cause ++ warning

/-- The `error_suggestion` advisory record that `should_continue` populates
on a forced pause (agent.py:773-783). -/
structure ErrorSuggestion where
  reason : String
  message : String
  suggestions : List String
  error_preview : String
  can_retry : Bool
deriving DecidableEq, Repr

/-- The orchestrator's state dictionary `AgentState` (agent.py:41-68),
restricted to the fields read or written by the embedded nodes. The
`classified_error` JSON dict is kept as the structured record it is built
from; `error_strategy` is kept as the `.value` string the code stores. -/
structure AgentState where
  project_name : String
  current_file : String
  compile_attempts : Nat
  last_error : Option String
  compile_success : Bool
  error_history : List String
  classified_error : Option ClassifiedError
  error_strategy : Option String
  error_suggestion : Option ErrorSuggestion
  is_paused : Bool
  pause_reason : Option String
  resume_options : List String
  final_module_path : Option String
  messages : List String
  logs : List String
deriving DecidableEq, Repr

/-- How Python renders a `bool` inside an f-string. -/
def pyBool (b : Bool) : String :=
  if b then "True" else "False"

/-- `add_log` (agent.py:75-93): append a timestamped entry and keep the
most recent 100 entries. The wall-clock timestamp is passed in as `ts`. -/
def add_log (ts : String) (state : AgentState) (message : String) : AgentState :=
  let log_entry := "[" ++ ts ++ "] " ++ message
  let L := state.logs ++ [log_entry]
  { state with logs := if 100 < L.length then L.drop (L.length - 100) else L }

/-- The state mutations of `typecheck_code` (agent.py:418-482). The external
compiler oracle's outcome is the parameter pair `(success, output)`, the
timestamp parameter `ts` stands for the clock, and the file write is taken
to succeed (its only state effect is the saved-file message). -/
def typecheck_code (ts : String) (success : Bool) (output : String)
    (state : AgentState) : AgentState :=
  let s1 := add_log ts state ("🔍 타입 체크 시작 (시도 " ++ toString (state.compile_attempts + 1) ++ ")")
  let s2 := { s1 with messages := s1.messages ++ ["✅ File saved: " ++ s1.current_file] }
  let s3 := { s2 with
    compile_attempts := s2.compile_attempts + 1
    compile_success := success
    last_error := if success then none else some output }
  if success then
    let s4 := add_log ts s3 "✅ 컴파일 성공!"
    { s4 with
      messages := s4.messages ++ ["✅ 타입 체크 성공!"]
      final_module_path := some s4.current_file
      classified_error := none
      error_strategy := none
      error_history := [] }
  else
    let s4 := { s3 with messages := s3.messages ++ ["❌ 타입 체크 실패:\n" ++ output] }
    let s5 := add_log ts s4 ("❌ 컴파일 실패 (시도 " ++ toString s4.compile_attempts ++ ")")
    let normalized_error := normalize_error_message output
    let H := s5.error_history ++ [normalized_error]
    let s6 := { s5 with error_history := if 5 < H.length then H.drop (H.length - 5) else H }
    let s7 := add_log ts s6 "🔍 에러 분류 중..."
    let classified := classify_error output
    let s8 := add_log ts s7 ("📋 에러 레벨: " ++
      (match classified.level with
       | ErrorLevel.SYNTAX_ERROR => "syntax"
       | ErrorLevel.PROOF_FAILURE => "proof"
       | ErrorLevel.DOMAIN_ERROR => "domain"
       | ErrorLevel.UNKNOWN => "unknown") ++
      ", 자동 수정: " ++ (if classified.auto_fixable then "가능" else "불가능"))
    let s9 := { s8 with classified_error := some classified }
    let strategy := decide_strategy DEFAULT_RETRY_POLICY classified s9.compile_attempts
    let s10 := { s9 with error_strategy := some strategy.value }
    let s11 := add_log ts s10 ("🎯 처리 전략: " ++ strategy.value)
    { s11 with messages := s11.messages ++
        ["\n" ++ format_user_message classified, "권장 전략: " ++ strategy.value] }

/-- The strategy-driven arm of `should_continue` (agent.py:801-841): the
decision each stored `error_strategy` string routes to, with `fix_error`
as the default when no strategy (or an unrecognised one) is set. -/
def routeOf (strategy : Option String) : String :=
  match strategy with
  | some "auto_fix" => "fix_error"
  | some "ask_user" => "ask_user"
  | some "fallback" => "finish"
  | some "reanalyze" => "reanalyze"
  | some "terminate" => "fail"
  | _ => "fix_error"

/-- The log line the strategy arm of `should_continue` writes. -/
def routeLog (state : AgentState) (strategy : Option String) : String :=
  match strategy with
  | some "auto_fix" => "🔄 에러 자동 수정 시도 예정 (다음 시도: " ++ toString (state.compile_attempts + 1) ++ ")"
  | some "ask_user" => "❓ 사용자 결정 필요 - 대기 중"
  | some "fallback" => "⚡ Fallback 모드: 증명 제거 후 진행"
  | some "reanalyze" => "🔄 도메인 모델링 오류 - 재분석 필요"
  | some "terminate" => "⛔ 워크플로우 중단"
  | _ => "🔄 기본 전략: 에러 수정 재시도"

/-- `should_continue` (agent.py:751-841): the routing decision after a
typecheck, returned together with the mutated state. On a failed compile
the repeated-error guard runs first: when the last three entries of
`error_history` are pairwise identical the workflow is force-paused
(advisory populated, `is_paused` set, four resume options offered) and the
decision is `ask_user`; otherwise the stored `error_strategy` routes. The
`save_state_to_file` call in the guard is pure I/O and mutates no state. -/
def should_continue (ts : String) (state : AgentState) : String × AgentState :=
  let s := add_log ts state ("🔀 다음 액션 결정 중... (성공: " ++
    pyBool state.compile_success ++ ", 시도: " ++ toString state.compile_attempts ++ ")")
  if s.compile_success then
    ("finish", add_log ts s "🎉 워크플로우 완료! Phase 5로 진행")
  else
    let route := fun (s : AgentState) =>
      (routeOf s.error_strategy, add_log ts s (routeLog s s.error_strategy))
    if 3 ≤ s.error_history.length then
      match s.error_history.drop (s.error_history.length - 3) with
      | [a, b, c] =>
        if a = b ∧ b = c then
          let s1 := add_log ts s "⛔ 동일 에러 3회 반복 - 워크플로우 일시 중단"
          let s2 := { s1 with
            error_suggestion := some
              { reason := "identical_error_3x"
                message := "동일한 에러가 3회 반복되어 자동 수정이 어렵습니다."
                suggestions :=
                  ["프롬프트를 더 구체적으로 작성해주세요 (예: 금액, 날짜, 항목을 명확히)",
                   "참조 문서를 추가로 업로드해주세요",
                   "요구사항을 단순화하거나 나누어서 시도해보세요"]
                error_preview := a.take 200
                can_retry := true }
            is_paused := true
            pause_reason := some "identical_error_3x"
            resume_options :=
              ["retry_with_new_prompt", "skip_validation", "manual_fix", "cancel"] }
          let s3 := add_log ts s2 "💾 상태 저장 완료 - 재개 가능"
          ("ask_user", s3)
        else route s
      | _ => route s
    else route s

-- ===========================================================================
-- src/agent/workflow_state.py
-- ===========================================================================

/-- `Phase` enum (workflow_state.py:17-27): the nine workflow phases. -/
inductive Phase where
  | INPUT
  | ANALYSIS
  | SPEC_GENERATION
  | COMPILATION
  | DOC_IMPL
  | DRAFT
  | FEEDBACK
  | REFINEMENT
  | FINAL
deriving DecidableEq, Repr

/-- The `.value` string of each `Phase` member (workflow_state.py:19-27). -/
def Phase.value : Phase → String
  | Phase.INPUT => "InputPhase"
  | Phase.ANALYSIS => "AnalysisPhase"
  | Phase.SPEC_GENERATION => "SpecGenerationPhase"
  | Phase.COMPILATION => "CompilationPhase"
  | Phase.DOC_IMPL => "DocImplPhase"
  | Phase.DRAFT => "DraftPhase"
  | Phase.FEEDBACK => "FeedbackPhase"
  | Phase.REFINEMENT => "RefinementPhase"
  | Phase.FINAL => "FinalPhase"

/-- The enum lookup `Phase(value)` used by `WorkflowState.load`
(workflow_state.py:294): a string that is no member's value raises, embedded
as `none`. -/
def Phase.ofValue (s : String) : Option Phase :=
  if s = "InputPhase" then some Phase.INPUT
  else if s = "AnalysisPhase" then some Phase.ANALYSIS
  else if s = "SpecGenerationPhase" then some Phase.SPEC_GENERATION
  else if s = "CompilationPhase" then some Phase.COMPILATION
  else if s = "DocImplPhase" then some Phase.DOC_IMPL
  else if s = "DraftPhase" then some Phase.DRAFT
  else if s = "FeedbackPhase" then some Phase.FEEDBACK
  else if s = "RefinementPhase" then some Phase.REFINEMENT
  else if s = "FinalPhase" then some Phase.FINAL
  else none

/-- `CompileResult` dataclass (workflow_state.py:49-58). -/
structure CompileResult where
  success : Bool
  error_msg : Option String := none
deriving DecidableEq, Repr

/-- `UserSatisfaction` dataclass (workflow_state.py:65-74). -/
structure UserSatisfaction where
  satisfied : Bool
  revision_request : Option String := none
deriving DecidableEq, Repr

/-- `WorkflowState` dataclass (workflow_state.py:81-121). -/
structure WorkflowState where
  project_name : String
  current_phase : Phase := Phase.INPUT
  user_prompt : Option String := none
  reference_docs : List String := []
  analysis_result : Option String := none
  spec_code : Option String := none
  spec_file : Option String := none
  compile_attempts : Nat := 0
  compile_result : Option CompileResult := none
  documentable_impl : Option String := none
  pipeline_impl : Option String := none
  draft_text : Option String := none
  draft_markdown : Option String := none
  draft_csv : Option String := none
  version : Nat := 1
  feedback_history : List String := []
  user_satisfaction : Option UserSatisfaction := none
  generate_pdf : Bool := false
  final_pdf_path : Option String := none
  completed : Bool := false
deriving DecidableEq, Repr

/-- `input_phase_complete` (workflow_state.py:127-129). -/
def WorkflowState.input_phase_complete (s : WorkflowState) : Bool :=
  s.user_prompt.isSome && decide (0 < s.reference_docs.length)

/-- `analysis_phase_complete` (workflow_state.py:131-133). -/
def WorkflowState.analysis_phase_complete (s : WorkflowState) : Bool :=
  s.analysis_result.isSome

/-- `spec_generation_phase_complete` (workflow_state.py:135-137). -/
def WorkflowState.spec_generation_phase_complete (s : WorkflowState) : Bool :=
  s.spec_code.isSome && s.spec_file.isSome

/-- `compilation_phase_complete` (workflow_state.py:139-144). -/
def WorkflowState.compilation_phase_complete (s : WorkflowState) : Bool :=
  match s.compile_result with
  | some r => r.success
  | none => false

/-- `doc_impl_phase_complete` (workflow_state.py:146-151). -/
def WorkflowState.doc_impl_phase_complete (s : WorkflowState) : Bool :=
  s.documentable_impl.isSome && s.pipeline_impl.isSome

/-- `draft_phase_complete` (workflow_state.py:153-158). -/
def WorkflowState.draft_phase_complete (s : WorkflowState) : Bool :=
  s.draft_text.isSome || s.draft_markdown.isSome

/-- `can_advance` (workflow_state.py:168-181): the completion predicate of
the current phase. -/
def WorkflowState.can_advance (s : WorkflowState) : Bool :=
  match s.current_phase with
  | Phase.INPUT => s.input_phase_complete
  | Phase.ANALYSIS => s.analysis_phase_complete
  | Phase.SPEC_GENERATION => s.spec_generation_phase_complete
  | Phase.COMPILATION => s.compilation_phase_complete
  | Phase.DOC_IMPL => s.doc_impl_phase_complete
  | Phase.DRAFT => s.draft_phase_complete
  | Phase.FEEDBACK => true
  | Phase.REFINEMENT => s.user_satisfaction.isSome
  | Phase.FINAL => true

/-- `next_phase` (workflow_state.py:183-196): the fixed transition table. -/
def WorkflowState.next_phase (s : WorkflowState) : Phase :=
  match s.current_phase with
  | Phase.INPUT => Phase.ANALYSIS
  | Phase.ANALYSIS => Phase.SPEC_GENERATION
  | Phase.SPEC_GENERATION => Phase.COMPILATION
  | Phase.COMPILATION => Phase.DOC_IMPL
  | Phase.DOC_IMPL => Phase.DRAFT
  | Phase.DRAFT => Phase.FEEDBACK
  | Phase.FEEDBACK => Phase.REFINEMENT
  | Phase.REFINEMENT => Phase.DRAFT
  | Phase.FINAL => Phase.FINAL

/-- `advance` (workflow_state.py:198-203): when the current phase is
complete, move the phase cursor and report success; otherwise report
failure. The mutation of `self` is embedded as the returned state. -/
def WorkflowState.advance (s : WorkflowState) : Bool × WorkflowState :=
  if s.can_advance then (true, { s with current_phase := s.next_phase })
  else (false, s)

/-- `MAX_COMPILE_ATTEMPTS` (workflow_state.py:209). -/
def MAX_COMPILE_ATTEMPTS : Nat := 5

/-- `can_retry_compile` (workflow_state.py:211-213). -/
def WorkflowState.can_retry_compile (s : WorkflowState) : Bool :=
  s.compile_attempts < MAX_COMPILE_ATTEMPTS

/-- `increment_compile_attempts` (workflow_state.py:215-217). -/
def WorkflowState.increment_compile_attempts (s : WorkflowState) : WorkflowState :=
  { s with compile_attempts := s.compile_attempts + 1 }

/-- `increment_version` (workflow_state.py:223-225). -/
def WorkflowState.increment_version (s : WorkflowState) : WorkflowState :=
  { s with version := s.version + 1 }

/-- `version_string` (workflow_state.py:227-229). -/
def WorkflowState.version_string (s : WorkflowState) : String :=
  "v" ++ toString s.version

/-- The JSON document `WorkflowState.save` writes to
`<output_dir>/<project_name>/workflow_state.json` (workflow_state.py:254-280):
the record with the `Phase` enum replaced by its value string and the two
nested dataclasses kept as nested objects or null. -/
structure SavedState where
  project_name : String
  current_phase : String
  user_prompt : Option String
  reference_docs : List String
  analysis_result : Option String
  spec_code : Option String
  spec_file : Option String
  compile_attempts : Nat
  compile_result : Option CompileResult
  documentable_impl : Option String
  pipeline_impl : Option String
  draft_text : Option String
  draft_markdown : Option String
  draft_csv : Option String
  version : Nat
  feedback_history : List String
  user_satisfaction : Option UserSatisfaction
  generate_pdf : Bool
  final_pdf_path : Option String
  completed : Bool
deriving DecidableEq, Repr

/-- The serialization half of `WorkflowState.save` (workflow_state.py:254-280). -/
def save_data (s : WorkflowState) : SavedState :=
  { project_name := s.project_name
    current_phase := s.current_phase.value
    user_prompt := s.user_prompt
    reference_docs := s.reference_docs
    analysis_result := s.analysis_result
    spec_code := s.spec_code
    spec_file := s.spec_file
    compile_attempts := s.compile_attempts
    compile_result := s.compile_result
    documentable_impl := s.documentable_impl
    pipeline_impl := s.pipeline_impl
    draft_text := s.draft_text
    draft_markdown := s.draft_markdown
    draft_csv := s.draft_csv
    version := s.version
    feedback_history := s.feedback_history
    user_satisfaction := s.user_satisfaction
    generate_pdf := s.generate_pdf
    final_pdf_path := s.final_pdf_path
    completed := s.completed }

/-- The deserialization half of `WorkflowState.load` (workflow_state.py:282-304):
restore the `Phase` enum from its value string (failure of the enum lookup
raises in Python, embedded as `none`) and rebuild the record. -/
def load_data (d : SavedState) : Option WorkflowState :=
  match Phase.ofValue d.current_phase with
  | none => none
  | some p => some
    { project_name := d.project_name
      current_phase := p
      user_prompt := d.user_prompt
      reference_docs := d.reference_docs
      analysis_result := d.analysis_result
      spec_code := d.spec_code
      spec_file := d.spec_file
      compile_attempts := d.compile_attempts
      compile_result := d.compile_result
      documentable_impl := d.documentable_impl
      pipeline_impl := d.pipeline_impl
      draft_text := d.draft_text
      draft_markdown := d.draft_markdown
      draft_csv := d.draft_csv
      version := d.version
      feedback_history := d.feedback_history
      user_satisfaction := d.user_satisfaction
      generate_pdf := d.generate_pdf
      final_pdf_path := d.final_pdf_path
      completed := d.completed }

/-- A run of the orchestrator's typecheck loop in which every compile
fails with the same diagnostic: `k` consecutive executions of the
`typecheck_code` node on compiler outcome `(False, output)`. -/
def iterFail (ts output : String) (s : AgentState) : Nat → AgentState
  | 0 => s
  | k + 1 => typecheck_code ts false output (iterFail ts output s k)

-- ===========================================================================
-- Theorems
-- ===========================================================================

/-- C3: for every classified error and every attempt count, the default
retry policy decides: Syntax → AutoFix below 3 attempts, Terminate from 3
on; Proof → AskUser at 0, Fallback afterwards; Domain → Reanalyze at 0,
Terminate afterwards; Unknown → AskUser at 0, Terminate afterwards. -/
theorem decide_strategy_default_table (e : ClassifiedError) (n : Nat) :
    decide_strategy DEFAULT_RETRY_POLICY e n =
      match e.level with
      | ErrorLevel.SYNTAX_ERROR =>
          if n < 3 then ErrorStrategy.AUTO_FIX else ErrorStrategy.TERMINATE
      | ErrorLevel.PROOF_FAILURE =>
          if n = 0 then ErrorStrategy.ASK_USER else ErrorStrategy.FALLBACK
      | ErrorLevel.DOMAIN_ERROR =>
          if n = 0 then ErrorStrategy.REANALYZE else ErrorStrategy.TERMINATE
      | ErrorLevel.UNKNOWN =>
          if n = 0 then ErrorStrategy.ASK_USER else ErrorStrategy.TERMINATE := by
  cases h : e.level <;>
    simp [decide_strategy, should_retry, h, DEFAULT_RETRY_POLICY]

/-- C4: classification is total, assigns the level by ordered pattern
matching with priority Domain > Proof > Syntax > Unknown, and sets
`auto_fixable` exactly on Syntax; a diagnostic matching both a Domain and
a Syntax pattern is classified Domain and is not auto-fixable. -/
theorem classify_error_level_priority (m : String) :
    ((classify_error m).level =
      (if is_domain_error m then ErrorLevel.DOMAIN_ERROR
       else if is_proof_failure m then ErrorLevel.PROOF_FAILURE
       else if is_syntax_error m then ErrorLevel.SYNTAX_ERROR
       else ErrorLevel.UNKNOWN)) ∧
    ((classify_error m).auto_fixable = true ↔
      (classify_error m).level = ErrorLevel.SYNTAX_ERROR) ∧
    (is_domain_error m = true → is_syntax_error m = true →
      (classify_error m).level = ErrorLevel.DOMAIN_ERROR ∧
        (classify_error m).auto_fixable = false) := by
  refine ⟨rfl, ?_, ?_⟩
  · simp only [classify_error, is_auto_fixable, classify_error_level]
    split_ifs <;> simp
  · intro hd _
    simp [classify_error, is_auto_fixable, classify_error_level, hd]

/-- Witness for C4's conditional conjunct at a diagnostic that contains
both a Domain pattern and a Syntax pattern. -/
theorem classify_error_level_priority_witness :
    (classify_error "Type mismatch between A and B; Undefined name x").level
        = ErrorLevel.DOMAIN_ERROR ∧
      (classify_error "Type mismatch between A and B; Undefined name x").auto_fixable
        = false :=
  (classify_error_level_priority
    "Type mismatch between A and B; Undefined name x").2.2 (by decide) (by decide)

/-- C9: the phase transition table has the single back-edge
Refinement → Draft, the absorbing state Final → Final, and otherwise
advances each phase to the immediately following one in the listed
order with no skips. -/
theorem next_phase_table (s : WorkflowState) :
    (s.current_phase = Phase.REFINEMENT → s.next_phase = Phase.DRAFT) ∧
    (s.current_phase = Phase.FINAL → s.next_phase = Phase.FINAL) ∧
    (s.current_phase = Phase.INPUT → s.next_phase = Phase.ANALYSIS) ∧
    (s.current_phase = Phase.ANALYSIS → s.next_phase = Phase.SPEC_GENERATION) ∧
    (s.current_phase = Phase.SPEC_GENERATION → s.next_phase = Phase.COMPILATION) ∧
    (s.current_phase = Phase.COMPILATION → s.next_phase = Phase.DOC_IMPL) ∧
    (s.current_phase = Phase.DOC_IMPL → s.next_phase = Phase.DRAFT) ∧
    (s.current_phase = Phase.DRAFT → s.next_phase = Phase.FEEDBACK) ∧
    (s.current_phase = Phase.FEEDBACK → s.next_phase = Phase.REFINEMENT) := by
  cases h : s.current_phase <;>
    simp [WorkflowState.next_phase, h]

/-- Witness for C9 at a concrete state sitting in the Refinement phase. -/
theorem next_phase_table_witness :
    ({ project_name := "p", current_phase := Phase.REFINEMENT } :
      WorkflowState).next_phase = Phase.DRAFT :=
  (next_phase_table _).1 rfl

/-- C10: serializing a `WorkflowState` to its JSON document and
deserializing it back restores the state field-for-field, including the
`Phase` enum and the nested `CompileResult` and `UserSatisfaction`
records. -/
theorem save_load_round_trip (s : WorkflowState) :
    load_data (save_data s) = some s := by
  rcases s with ⟨pn, cp, f3, f4, f5, f6, f7, f8, f9, f10,
    f11, f12, f13, f14, f15, f16, f17, f18, f19, f20⟩
  cases cp <;> rfl

/-- C8: `advance` never fails: when the current phase's completion
predicate is false it reports failure and returns the state unchanged;
when it is true it reports success and changes exactly the phase cursor,
every other field being preserved in both cases. -/
theorem advance_spec (s : WorkflowState) :
    (s.can_advance = false → s.advance = (false, s)) ∧
    (s.can_advance = true →
      s.advance = (true, { s with current_phase := s.next_phase })) ∧
    s.advance.1 = s.can_advance ∧
    s.advance.2.current_phase
      = (if s.can_advance then s.next_phase else s.current_phase) ∧
    s.advance.2.project_name = s.project_name ∧
    s.advance.2.user_prompt = s.user_prompt ∧
    s.advance.2.reference_docs = s.reference_docs ∧
    s.advance.2.analysis_result = s.analysis_result ∧
    s.advance.2.spec_code = s.spec_code ∧
    s.advance.2.spec_file = s.spec_file ∧
    s.advance.2.compile_attempts = s.compile_attempts ∧
    s.advance.2.compile_result = s.compile_result ∧
    s.advance.2.documentable_impl = s.documentable_impl ∧
    s.advance.2.pipeline_impl = s.pipeline_impl ∧
    s.advance.2.draft_text = s.draft_text ∧
    s.advance.2.draft_markdown = s.draft_markdown ∧
    s.advance.2.draft_csv = s.draft_csv ∧
    s.advance.2.version = s.version ∧
    s.advance.2.feedback_history = s.feedback_history ∧
    s.advance.2.user_satisfaction = s.user_satisfaction ∧
    s.advance.2.generate_pdf = s.generate_pdf ∧
    s.advance.2.final_pdf_path = s.final_pdf_path ∧
    s.advance.2.completed = s.completed := by
  by_cases h : s.can_advance = true <;>
    simp_all [WorkflowState.advance]

/-- Witness for C8: a freshly created state at the Input phase with no
prompt cannot advance and `advance` leaves it untouched; a state at the
Feedback phase advances to Refinement. -/
theorem advance_spec_witness :
    ({ project_name := "p" } : WorkflowState).advance
        = (false, { project_name := "p" }) ∧
      ({ project_name := "p", current_phase := Phase.FEEDBACK } :
          WorkflowState).advance
        = (true, { project_name := "p", current_phase := Phase.REFINEMENT }) :=
  ⟨(advance_spec _).1 rfl, (advance_spec _).2.1 rfl⟩

/-- Dropping fewer elements than the list holds keeps its last element. -/
theorem getLast?_drop_lt {α : Type} :
    ∀ (l : List α) (n : Nat), n < l.length → (l.drop n).getLast? = l.getLast?
  | [], n, h => by simp at h
  | _ :: _, 0, _ => rfl
  | c :: t, n + 1, h => by
      have ht : n < t.length := by simpa using h
      obtain ⟨d, ts, rfl⟩ : ∃ d ts, t = d :: ts := by
        cases t with
        | nil => simp at ht
        | cons d ts => exact ⟨d, ts, rfl⟩
      rw [List.drop_succ_cons, getLast?_drop_lt (d :: ts) n ht,
        List.getLast?_cons_cons]

/-- C7: the two ring buffers respect their bounds: after any `add_log`
call the log holds at most 100 entries, and after any `typecheck_code`
call the error history holds at most 5; trimming is FIFO — the result is
a suffix of the untrimmed appended list, and the newest entry is always
retained at the end. -/
theorem ring_buffer_bounds (ts msg output : String) (s : AgentState) :
    (add_log ts s msg).logs.length ≤ 100 ∧
    (add_log ts s msg).logs.getLast? = some ("[" ++ ts ++ "] " ++ msg) ∧
    (add_log ts s msg).logs <:+ s.logs ++ ["[" ++ ts ++ "] " ++ msg] ∧
    (∀ success, (typecheck_code ts success output s).error_history.length ≤ 5) ∧
    (typecheck_code ts false output s).error_history.getLast?
      = some (normalize_error_message output) ∧
    (typecheck_code ts false output s).error_history
      <:+ s.error_history ++ [normalize_error_message output] := by
  have hlog : (add_log ts s msg).logs =
      (if 100 < (s.logs ++ [ "[" ++ ts ++ "] " ++ msg ]).length then
        (s.logs ++ [ "[" ++ ts ++ "] " ++ msg ]).drop
          ((s.logs ++ [ "[" ++ ts ++ "] " ++ msg ]).length - 100)
      else s.logs ++ [ "[" ++ ts ++ "] " ++ msg ]) := rfl
  have hhist : ∀ success, (typecheck_code ts success output s).error_history =
      (if success then ([] : List String) else
        (if 5 < (s.error_history ++ [normalize_error_message output]).length then
          (s.error_history ++ [normalize_error_message output]).drop
            ((s.error_history ++ [normalize_error_message output]).length - 5)
        else s.error_history ++ [normalize_error_message output])) := by
    intro success
    cases success <;> rfl
  refine ⟨?_, ?_, ?_, ?_, ?_, ?_⟩
  · rw [hlog]; split <;> rename_i h <;>
      simp only [List.length_drop, List.length_append, List.length_cons,
        List.length_nil] at h ⊢ <;> omega
  · rw [hlog]; split
    · rw [getLast?_drop_lt _ _ (by simp; omega)]
      exact List.getLast?_concat _
    · exact List.getLast?_concat _
  · rw [hlog]; split
    · exact List.drop_suffix _ _
    · exact List.suffix_refl _
  · intro success
    rw [hhist success]
    cases success
    · simp only [if_neg Bool.false_ne_true]
      split <;> rename_i h <;>
        simp only [List.length_drop, List.length_append, List.length_cons,
          List.length_nil] at h ⊢ <;> omega
    · simp
  · rw [hhist false]
    simp only [if_neg Bool.false_ne_true]
    split
    · rw [getLast?_drop_lt _ _ (by simp; omega)]
      exact List.getLast?_concat _
    · exact List.getLast?_concat _
  · rw [hhist false]
    simp only [if_neg Bool.false_ne_true]
    split
    · exact List.drop_suffix _ _
    · exact List.suffix_refl _

/-- `add_log` touches only the log buffer: the compile flag is preserved. -/
theorem add_log_compile_success (ts : String) (s : AgentState) (m : String) :
    (add_log ts s m).compile_success = s.compile_success := rfl

/-- `add_log` touches only the log buffer: the error history is preserved. -/
theorem add_log_error_history (ts : String) (s : AgentState) (m : String) :
    (add_log ts s m).error_history = s.error_history := rfl

/-- `add_log` touches only the log buffer: the stored strategy is preserved. -/
theorem add_log_error_strategy (ts : String) (s : AgentState) (m : String) :
    (add_log ts s m).error_strategy = s.error_strategy := rfl

/-- `add_log` touches only the log buffer: the pause flag is preserved. -/
theorem add_log_is_paused (ts : String) (s : AgentState) (m : String) :
    (add_log ts s m).is_paused = s.is_paused := rfl

/-- C2: on a failed compile whose error history ends in three pairwise
identical entries, `should_continue` answers `ask_user` and pauses the
workflow, whatever `error_strategy` holds; when the last three entries are
not pairwise identical the guard does not trip and the decision follows
`error_strategy`, the pause flag staying as it was. -/
theorem should_continue_guard_spec (ts : String) (s : AgentState)
    (a b c : String)
    (hfail : s.compile_success = false)
    (hdrop : s.error_history.drop (s.error_history.length - 3) = [a, b, c]) :
    (a = b ∧ b = c →
      (should_continue ts s).1 = "ask_user" ∧
      (should_continue ts s).2.is_paused = true) ∧
    (¬(a = b ∧ b = c) →
      (should_continue ts s).1 = routeOf s.error_strategy ∧
      (should_continue ts s).2.is_paused = s.is_paused) := by
  have hlen := congrArg List.length hdrop
  simp only [List.length_drop, List.length_cons, List.length_nil] at hlen
  have h3 : 3 ≤ s.error_history.length := by omega
  simp only [should_continue, add_log_compile_success, add_log_error_history,
    add_log_error_strategy, hfail, Bool.false_eq_true, if_false, if_pos h3,
    hdrop]
  constructor
  · intro hsame
    rw [if_pos hsame]
    exact ⟨rfl, rfl⟩
  · intro hne
    rw [if_neg hne]
    exact ⟨rfl, rfl⟩

/-- Witness for C2 at two concrete states: three identical trailing
diagnostics pause the run even though the stored strategy is `auto_fix`;
two identical plus one different route along the strategy instead. -/
theorem should_continue_guard_spec_witness :
    ((should_continue ""
        { project_name := "p", current_file := "f", compile_attempts := 3,
          last_error := some "E", compile_success := false,
          error_history := ["E", "E", "E"], classified_error := none,
          error_strategy := some "auto_fix", error_suggestion := none,
          is_paused := false, pause_reason := none, resume_options := [],
          final_module_path := none, messages := [], logs := [] }).1
      = "ask_user") ∧
    ((should_continue ""
        { project_name := "p", current_file := "f", compile_attempts := 3,
          last_error := some "E", compile_success := false,
          error_history := ["E", "E", "D"], classified_error := none,
          error_strategy := some "auto_fix", error_suggestion := none,
          is_paused := false, pause_reason := none, resume_options := [],
          final_module_path := none, messages := [], logs := [] }).1
      = "fix_error") := by
  constructor
  · exact ((should_continue_guard_spec ""
      { project_name := "p", current_file := "f", compile_attempts := 3,
        last_error := some "E", compile_success := false,
        error_history := ["E", "E", "E"], classified_error := none,
        error_strategy := some "auto_fix", error_suggestion := none,
        is_paused := false, pause_reason := none, resume_options := [],
        final_module_path := none, messages := [], logs := [] }
      "E" "E" "E" rfl rfl).1 ⟨rfl, rfl⟩).1
  · have h := ((should_continue_guard_spec ""
      { project_name := "p", current_file := "f", compile_attempts := 3,
        last_error := some "E", compile_success := false,
        error_history := ["E", "E", "D"], classified_error := none,
        error_strategy := some "auto_fix", error_suggestion := none,
        is_paused := false, pause_reason := none, resume_options := [],
        final_module_path := none, messages := [], logs := [] }
      "E" "E" "D" rfl rfl).2 (by simp)).1
    simpa [routeOf] using h

/-- C6 (counterexample): at a concrete guard-tripping state the resume
menu `should_continue` installs is not the five-item menu the spec lists —
the code offers no `retry_with_more_docs` option. -/
theorem resume_menu_counterexample :
    (should_continue ""
        { project_name := "p", current_file := "f", compile_attempts := 3,
          last_error := some "E", compile_success := false,
          error_history := ["E", "E", "E"], classified_error := none,
          error_strategy := some "auto_fix", error_suggestion := none,
          is_paused := false, pause_reason := none, resume_options := [],
          final_module_path := none, messages := [], logs := [] }).2.resume_options
      ≠ ["retry_with_new_prompt", "retry_with_more_docs", "skip_validation",
         "manual_fix", "cancel"] := by decide

/-- C6 (amended): when the repeated-error guard trips, the orchestrator
pauses the workflow, records the pause reason, populates the structured
advisory, and sets `resume_options` to exactly the fixed four-item menu
retry-with-new-prompt, skip-validation, manual-fix, cancel. -/
theorem forced_pause_advisory (ts : String) (s : AgentState) (a : String)
    (hfail : s.compile_success = false)
    (hdrop : s.error_history.drop (s.error_history.length - 3) = [a, a, a]) :
    (should_continue ts s).2.is_paused = true ∧
    (should_continue ts s).2.pause_reason = some "identical_error_3x" ∧
    (should_continue ts s).2.error_suggestion = some
      { reason := "identical_error_3x"
        message := "동일한 에러가 3회 반복되어 자동 수정이 어렵습니다."
        suggestions :=
          ["프롬프트를 더 구체적으로 작성해주세요 (예: 금액, 날짜, 항목을 명확히)",
           "참조 문서를 추가로 업로드해주세요",
           "요구사항을 단순화하거나 나누어서 시도해보세요"]
        error_preview := a.take 200
        can_retry := true } ∧
    (should_continue ts s).2.resume_options =
      ["retry_with_new_prompt", "skip_validation", "manual_fix", "cancel"] ∧
    (should_continue ts s).1 = "ask_user" := by
  have hlen := congrArg List.length hdrop
  simp only [List.length_drop, List.length_cons, List.length_nil] at hlen
  have h3 : 3 ≤ s.error_history.length := by omega
  simp only [should_continue, add_log_compile_success, add_log_error_history,
    hfail, Bool.false_eq_true, if_false, if_pos h3, hdrop]
  rw [if_pos ⟨trivial, trivial⟩]
  refine ⟨?_, ?_, ?_, ?_, ?_⟩ <;> trivial

/-- Witness for C6's amended theorem at a concrete guard-tripping state. -/
theorem forced_pause_advisory_witness :
    (should_continue ""
        { project_name := "p", current_file := "f", compile_attempts := 3,
          last_error := some "E", compile_success := false,
          error_history := ["E", "E", "E"], classified_error := none,
          error_strategy := some "auto_fix", error_suggestion := none,
          is_paused := false, pause_reason := none, resume_options := [],
          final_module_path := none, messages := [], logs := [] }).2.resume_options
      = ["retry_with_new_prompt", "skip_validation", "manual_fix", "cancel"] :=
  (forced_pause_advisory ""
    { project_name := "p", current_file := "f", compile_attempts := 3,
      last_error := some "E", compile_success := false,
      error_history := ["E", "E", "E"], classified_error := none,
      error_strategy := some "auto_fix", error_suggestion := none,
      is_paused := false, pause_reason := none, resume_options := [],
      final_module_path := none, messages := [], logs := [] }
    "E" rfl rfl).2.2.2.1

/-- A failed `typecheck_code` run increments the attempt counter by one. -/
theorem typecheck_fail_attempts (ts output : String) (s : AgentState) :
    (typecheck_code ts false output s).compile_attempts
      = s.compile_attempts + 1 := rfl

/-- A failed `typecheck_code` run records as strategy the decision of the
default policy at the just-incremented attempt counter. -/
theorem typecheck_fail_strategy (ts output : String) (s : AgentState) :
    (typecheck_code ts false output s).error_strategy
      = some (decide_strategy DEFAULT_RETRY_POLICY (classify_error output)
          (s.compile_attempts + 1)).value := rfl

/-- After `k` consecutive failed typechecks the attempt counter has grown
by `k`. -/
theorem iterFail_attempts (ts output : String) (s : AgentState) :
    ∀ k, (iterFail ts output s k).compile_attempts = s.compile_attempts + k
  | 0 => rfl
  | k + 1 => by
      show (typecheck_code ts false output (iterFail ts output s k)).compile_attempts
        = s.compile_attempts + (k + 1)
      rw [typecheck_fail_attempts, iterFail_attempts ts output s k,
        Nat.add_assoc]

/-- C1 (counterexample): a project that starts at zero compile attempts
and keeps failing with the Syntax-classified diagnostic
`"Undefined name foo"` already records strategy `terminate` — not
`auto_fix` — after its third failed typecheck attempt, because
`typecheck_code` hands the incremented counter (here 3) to
`decide_strategy` and the default budget is `attempt_count < 3`. -/
theorem syntax_third_attempt_counterexample :
    (iterFail "" "Undefined name foo"
        { project_name := "p", current_file := "f", compile_attempts := 0,
          last_error := none, compile_success := false, error_history := [],
          classified_error := none, error_strategy := none,
          error_suggestion := none, is_paused := false, pause_reason := none,
          resume_options := [], final_module_path := none, messages := [],
          logs := [] } 3).error_strategy = some "terminate" ∧
    (iterFail "" "Undefined name foo"
        { project_name := "p", current_file := "f", compile_attempts := 0,
          last_error := none, compile_success := false, error_history := [],
          classified_error := none, error_strategy := none,
          error_suggestion := none, is_paused := false, pause_reason := none,
          resume_options := [], final_module_path := none, messages := [],
          logs := [] } 3).error_strategy ≠ some "auto_fix" := by
  constructor <;> decide

/-- C1 (amended): under the default policy, a run that keeps failing with
a Syntax-classified diagnostic records strategy AutoFix after each of the
first two failed typecheck attempts and Terminate after every failed
attempt from the third on (the caller passes the already-incremented
counter to `decide_strategy`, so the third failure reaches the
`attempt_count < 3` budget). -/
theorem syntax_failure_strategy_schedule (ts output : String) (s : AgentState)
    (hlevel : (classify_error output).level = ErrorLevel.SYNTAX_ERROR)
    (h0 : s.compile_attempts = 0) :
    ∀ k, 1 ≤ k →
      (iterFail ts output s k).error_strategy =
        some (if k < 3 then "auto_fix" else "terminate") := by
  intro k hk
  cases k with
  | zero => omega
  | succ k =>
      have hatt : (iterFail ts output s k).compile_attempts = k := by
        rw [iterFail_attempts, h0, Nat.zero_add]
      show (typecheck_code ts false output (iterFail ts output s k)).error_strategy
        = some (if k + 1 < 3 then "auto_fix" else "terminate")
      rw [typecheck_fail_strategy, hatt]
      simp only [decide_strategy, hlevel, should_retry, DEFAULT_RETRY_POLICY]
      by_cases h : k + 1 < 3
      · simp [h, ErrorStrategy.value]
      · simp [h, ErrorStrategy.value]

/-- Witness for C1's amended theorem: on the concrete Syntax diagnostic
`"Undefined name foo"`, attempt 2 still records `auto_fix` and attempt 4
records `terminate`. -/
theorem syntax_failure_strategy_schedule_witness :
    (iterFail "" "Undefined name foo"
        { project_name := "p", current_file := "f", compile_attempts := 0,
          last_error := none, compile_success := false, error_history := [],
          classified_error := none, error_strategy := none,
          error_suggestion := none, is_paused := false, pause_reason := none,
          resume_options := [], final_module_path := none, messages := [],
          logs := [] } 2).error_strategy = some "auto_fix" ∧
    (iterFail "" "Undefined name foo"
        { project_name := "p", current_file := "f", compile_attempts := 0,
          last_error := none, compile_success := false, error_history := [],
          classified_error := none, error_strategy := none,
          error_suggestion := none, is_paused := false, pause_reason := none,
          resume_options := [], final_module_path := none, messages := [],
          logs := [] } 4).error_strategy = some "terminate" := by
  constructor
  · have h := syntax_failure_strategy_schedule "" "Undefined name foo"
      { project_name := "p", current_file := "f", compile_attempts := 0,
        last_error := none, compile_success := false, error_history := [],
        classified_error := none, error_strategy := none,
        error_suggestion := none, is_paused := false, pause_reason := none,
        resume_options := [], final_module_path := none, messages := [],
        logs := [] } (by decide) rfl 2 (by decide)
    simpa using h
  · have h := syntax_failure_strategy_schedule "" "Undefined name foo"
      { project_name := "p", current_file := "f", compile_attempts := 0,
        last_error := none, compile_success := false, error_history := [],
        classified_error := none, error_strategy := none,
        error_suggestion := none, is_paused := false, pause_reason := none,
        resume_options := [], final_module_path := none, messages := [],
        logs := [] } (by decide) rfl 4 (by decide)
    simpa using h

/-- C5 (counterexample): normalization is not idempotent. On
`"x.idr:1:2:3:4"` the substitution pass rewrites the leading location
token and leaves `"x.idr:1:3:4"`, in which a fresh location token has
appeared; a second pass rewrites again, to `"x.idr:1:4"`. -/
theorem normalize_not_idempotent :
    normalize_error_message (normalize_error_message "x.idr:1:2:3:4")
      ≠ normalize_error_message "x.idr:1:2:3:4" := by decide

/-- The output of the whitespace-collapsing pass started inside a run
never begins with whitespace. -/
theorem collapseWsAux_true_head :
    ∀ (l : List Char) (c : Char),
      (collapseWsAux true l).head? = some c → isWs c = false := by
  intro l
  induction l with
  | nil => intro c h; simp [collapseWsAux] at h
  | cons d t ih =>
      intro c h
      by_cases hd : isWs d = true
      · rw [collapseWsAux, hd] at h
        simp only [if_true] at h
        exact ih c h
      · have hd' : isWs d = false := by
          cases h' : isWs d
          · rfl
          · exact absurd h' hd
        rw [collapseWsAux, hd'] at h
        simp only [Bool.false_eq_true, if_false, List.head?_cons,
          Option.some.injEq] at h
        rw [← h]
        exact hd'

/-- The whitespace-collapsing pass never leaves two adjacent whitespace
characters. -/
theorem collapseWsAux_chain (l : List Char) :
    ∀ b, List.Chain' (fun a b => ¬(isWs a = true ∧ isWs b = true))
      (collapseWsAux b l) := by
  induction l with
  | nil => intro b; simp [collapseWsAux]
  | cons d t ih =>
      intro b
      by_cases hd : isWs d = true
      · cases b
        · rw [collapseWsAux, hd]
          simp only [if_true, Bool.false_eq_true, if_false]
          rw [List.chain'_cons']
          refine ⟨?_, ih true⟩
          intro y hy
          have hy' : isWs y = false :=
            collapseWsAux_true_head t y (Option.mem_def.mp hy)
          intro hcon
          rw [hy'] at hcon
          exact Bool.false_ne_true hcon.2
        · rw [collapseWsAux, hd]
          simp only [if_true]
          exact ih true
      · have hd' : isWs d = false := by
          cases h' : isWs d
          · rfl
          · exact absurd h' hd
        rw [collapseWsAux, hd']
        simp only [Bool.false_eq_true, if_false]
        rw [List.chain'_cons']
        refine ⟨?_, ih false⟩
        intro y _ hcon
        rw [hd'] at hcon
        exact Bool.false_ne_true hcon.1

/-- Every whitespace character the collapsing pass emits is a plain
space. -/
theorem collapseWsAux_space (l : List Char) :
    ∀ b c, c ∈ collapseWsAux b l → isWs c = true → c = ' ' := by
  induction l with
  | nil => intro b c hc; simp [collapseWsAux] at hc
  | cons d t ih =>
      intro b c hc hws
      by_cases hd : isWs d = true
      · cases b
        · rw [collapseWsAux, hd] at hc
          simp only [if_true, Bool.false_eq_true, if_false,
            List.mem_cons] at hc
          rcases hc with hc | hc
          · exact hc
          · exact ih true c hc hws
        · rw [collapseWsAux, hd] at hc
          simp only [if_true] at hc
          exact ih true c hc hws
      · have hd' : isWs d = false := by
          cases h' : isWs d
          · rfl
          · exact absurd h' hd
        rw [collapseWsAux, hd'] at hc
        simp only [Bool.false_eq_true, if_false, List.mem_cons] at hc
        rcases hc with hc | hc
        · rw [hc] at hws
          rw [hws] at hd'
          exact absurd hd' (by simp)
        · exact ih false c hc hws

/-- Removing trailing whitespace keeps only characters of the input. -/
theorem dropTrailingWs_subset : ∀ l : List Char, dropTrailingWs l ⊆ l := by
  intro l
  induction l with
  | nil => simp [dropTrailingWs]
  | cons c t ih =>
      rw [dropTrailingWs]
      cases h : dropTrailingWs t with
      | nil =>
          by_cases hc : isWs c = true
          · rw [hc]
            simp
          · have hc' : isWs c = false := by
              cases h' : isWs c
              · rfl
              · exact absurd h' hc
            rw [hc']
            simp
      | cons d r =>
          rw [h] at ih
          intro y hy
          rcases List.mem_cons.mp hy with hy | hy
          · rw [hy]; exact List.mem_cons_self _ _
          · exact List.mem_cons_of_mem _ (ih hy)

/-- Removing trailing whitespace preserves the head of a list. -/
theorem dropTrailingWs_head :
    ∀ (l : List Char) (d : Char) (r : List Char),
      dropTrailingWs l = d :: r → l.head? = some d := by
  intro l d r h
  cases l with
  | nil => simp [dropTrailingWs] at h
  | cons c t =>
      rw [dropTrailingWs] at h
      cases ht : dropTrailingWs t with
      | nil =>
          rw [ht] at h
          by_cases hc : isWs c = true
          · rw [hc] at h; simp at h
          · have hc' : isWs c = false := by
              cases h' : isWs c
              · rfl
              · exact absurd h' hc
            rw [hc'] at h
            simp only [Bool.false_eq_true, if_false, List.cons.injEq] at h
            rw [h.1]
            rfl
      | cons e rs =>
          rw [ht] at h
          injection h with h1 _
          rw [h1]
          rfl

/-- Removing trailing whitespace preserves freedom from adjacent
whitespace pairs. -/
theorem dropTrailingWs_chain :
    ∀ l : List Char,
      List.Chain' (fun a b => ¬(isWs a = true ∧ isWs b = true)) l →
      List.Chain' (fun a b => ¬(isWs a = true ∧ isWs b = true))
        (dropTrailingWs l) := by
  intro l
  induction l with
  | nil => intro h; simp [dropTrailingWs]
  | cons c t ih =>
      intro h
      obtain ⟨hR, ht⟩ := List.chain'_cons'.mp h
      rw [dropTrailingWs]
      cases hd : dropTrailingWs t with
      | nil =>
          by_cases hc : isWs c = true
          · rw [hc]; simp
          · have hc' : isWs c = false := by
              cases h' : isWs c
              · rfl
              · exact absurd h' hc
            rw [hc']
            simp
      | cons d r =>
          rw [List.chain'_cons']
          constructor
          · intro y hy
            have hy' : y = d := by
              have := Option.mem_def.mp hy
              simp at this
              exact this.symm
            rw [hy']
            exact hR d (by rw [dropTrailingWs_head t d r hd]; rfl)
          · rw [← hd]
            exact ih ht

/-- A list in whitespace canonical form — every whitespace character a
plain space, no two adjacent — is a fixed point of the collapsing pass. -/
theorem collapseWsAux_eq_self :
    ∀ l : List Char,
      (∀ c ∈ l, isWs c = true → c = ' ') →
      List.Chain' (fun a b => ¬(isWs a = true ∧ isWs b = true)) l →
      collapseWsAux false l = l ∧
        (∀ c t, l = c :: t → isWs c = false → collapseWsAux true l = l) := by
  intro l
  induction l with
  | nil => exact fun _ _ => ⟨rfl, fun c t h => by simp at h⟩
  | cons d t ih =>
      intro hsp hch
      obtain ⟨hR, ht⟩ := List.chain'_cons'.mp hch
      have hspt : ∀ c ∈ t, isWs c = true → c = ' ' :=
        fun c hc => hsp c (List.mem_cons_of_mem _ hc)
      obtain ⟨ih1, ih2⟩ := ih hspt ht
      by_cases hd : isWs d = true
      · have hd' : d = ' ' := hsp d (List.mem_cons_self _ _) hd
        constructor
        · rw [collapseWsAux, hd]
          simp only [if_true, Bool.false_eq_true, if_false]
          rw [hd']
          congr 1
          cases t with
          | nil => rfl
          | cons e ts =>
              have he : isWs e = false := by
                have hRe := hR e (by rfl)
                cases h' : isWs e
                · rfl
                · exact absurd ⟨hd, h'⟩ hRe
              exact ih2 e ts rfl he
        · intro c t' heq hcw
          injection heq with h1 _
          rw [← h1] at hcw
          rw [hcw] at hd
          exact absurd hd (by simp)
      · have hd' : isWs d = false := by
          cases h' : isWs d
          · rfl
          · exact absurd h' hd
        constructor
        · rw [collapseWsAux, hd']
          simp only [Bool.false_eq_true, if_false]
          rw [ih1]
        · intro c t' _ _
          rw [collapseWsAux, hd']
          simp only [Bool.false_eq_true, if_false]
          rw [ih1]

/-- C5 (amended): normalization is idempotent on every diagnostic whose
normalized form is free of residual location tokens (the substitution
pass leaves it unchanged) and carries no leading or trailing whitespace
(the 150-character cut did not end just past a space). The two
hypotheses are exactly what the counterexamples force: whitespace
collapsing is always stable on a normalized string, and a normalized
string is always within the 150-character bound. -/
theorem normalize_idempotent_of_stable (x : String)
    (hsub : subLoc (normalize_error_message x).data
      = (normalize_error_message x).data)
    (hstrip : stripWs (normalize_error_message x).data
      = (normalize_error_message x).data) :
    normalize_error_message (normalize_error_message x)
      = normalize_error_message x := by
  have hdata : (normalize_error_message x).data
      = (stripWs (collapseWs (subLoc x.data))).take 150 := rfl
  have hsp : ∀ c ∈ (normalize_error_message x).data, isWs c = true → c = ' ' := by
    rw [hdata]
    intro c hc
    have hc2 : c ∈ stripWs (collapseWs (subLoc x.data)) :=
      List.take_subset _ _ hc
    have hc3 : c ∈ (collapseWs (subLoc x.data)).dropWhile isWs :=
      dropTrailingWs_subset _ hc2
    have hc4 : c ∈ collapseWs (subLoc x.data) :=
      (List.IsSuffix.subset (List.dropWhile_suffix isWs)) hc3
    exact collapseWsAux_space _ false c hc4
  have hch : List.Chain' (fun a b => ¬(isWs a = true ∧ isWs b = true))
      (normalize_error_message x).data := by
    rw [hdata]
    exact List.Chain'.take
      (dropTrailingWs_chain _
        (List.Chain'.suffix (collapseWsAux_chain _ false)
          (List.dropWhile_suffix isWs))) 150
  have hcol : collapseWs (normalize_error_message x).data
      = (normalize_error_message x).data :=
    (collapseWsAux_eq_self _ hsp hch).1
  have hlen : (normalize_error_message x).data.length ≤ 150 := by
    rw [hdata]
    exact List.length_take_le _ _
  show String.mk ((stripWs (collapseWs
      (subLoc (normalize_error_message x).data))).take 150)
    = normalize_error_message x
  rw [hsub, hcol, hstrip, List.take_of_length_le hlen]

/-- Witness for C5's amended theorem: a diagnostic with no location token
and no whitespace surprises, on which normalization is a fixed point. -/
theorem normalize_idempotent_of_stable_witness :
    normalize_error_message (normalize_error_message "Error: Undefined name foo")
      = normalize_error_message "Error: Undefined name foo" :=
  normalize_idempotent_of_stable "Error: Undefined name foo"
    (by decide) (by decide)
